import Mathlib

/-!
Verification of the knowledge-base layer of the `jira-agent` repository
(`src/jira-agent/agent.py`), as a shallow embedding in Lean 4.

Python strings are modelled as `List Char`; JSON-decoded ticket values as
`JValue` (dicts nested to the depth the code distinguishes: the code only
ever inspects one level of sub-object, via `value.get(subkey)`); Python
dicts as association lists with first-match lookup.  The ChromaDB
collection ("Vector Store") is an external collaborator and is modelled as
a function from query text, result count and filter mapping to either an
exception (`Except.error`) or a raw parallel-array reply, mirroring the
interface the code consumes (`results['ids'][0]` etc., single-query batch).
Distances and relevance scores are modelled as exact rationals; Python's
`round(x, 3)` is modelled as round-half-even at three decimals.
`datetime.now().isoformat()` and `str(uuid.uuid4())[:8]` are
nondeterministic inputs and are passed in as explicit parameters.
-/

namespace RcaAgent

/-- Python strings, modelled as lists of characters. -/
abbrev Str := List Char

/-- Literal helper: a Lean string literal read as a Python string. -/
def lit (s : String) : Str := s.toList

/-- A JSON scalar appearing one level down, inside an object-valued ticket
field (the code only reads sub-values via `value.get(subkey, '')`). -/
inductive JLeaf where
  | null
  | bool (b : Bool)
  | int (n : Int)
  | str (s : Str)
  deriving DecidableEq

/-- A JSON-decoded Python value at ticket-field level: `None`, a bool, an
int, a string, or a dict of scalars. -/
inductive JValue where
  | null
  | bool (b : Bool)
  | int (n : Int)
  | str (s : Str)
  | obj (fields : List (Str × JLeaf))
  deriving DecidableEq

def JLeaf.toJValue : JLeaf → JValue
  | .null => .null
  | .bool b => .bool b
  | .int n => .int n
  | .str s => .str s

/-- A JSON-decoded Python dict (e.g. a parsed ticket). -/
abbrev PyDict := List (Str × JValue)

/-- Lookup `d[k]`: first binding wins (Python dicts have unique keys). -/
def pyLookup (d : PyDict) (k : Str) : Option JValue :=
  List.lookup k d

/-- Python `d.get(k, dflt)`: the present value (even if falsy), else the
default. -/
def pyGet (d : PyDict) (k : Str) (dflt : JValue) : JValue :=
  (pyLookup d k).getD dflt

/-- Python `value.get(subkey, '')` on an object-valued field. -/
def objGet (f : List (Str × JLeaf)) (k : Str) : JValue :=
  match List.lookup k f with
  | some v => v.toJValue
  | none => .str []

/-- Python truthiness of a `JLeaf`. -/
def JLeaf.truthy : JLeaf → Bool
  | .null => false
  | .bool b => b
  | .int n => n != 0
  | .str s => !s.isEmpty

/-- Python truthiness of a `JValue` (`bool(v)`). -/
def JValue.truthy : JValue → Bool
  | .null => false
  | .bool b => b
  | .int n => n != 0
  | .str s => !s.isEmpty
  | .obj f => !f.isEmpty

/-- Is this value a Python `str`? (`isinstance(v, str)`). -/
def JValue.isStr : JValue → Bool
  | .str _ => true
  | _ => false

/-- Is this value a Python `dict`? (`isinstance(v, dict)`). -/
def JValue.isObj : JValue → Bool
  | .obj _ => true
  | _ => false

/-- Escape one character for Python `repr` of a string with the given
  quote character. -/
def pyEscChar (quote c : Char) : Str :=
  if c = '\\' then ['\\', '\\']
  else if c = quote then ['\\', quote]
  else if c = '\n' then ['\\', 'n']
  else if c = '\r' then ['\\', 'r']
  else if c = '\t' then ['\\', 't']
  else [c]

/-- Python `repr` of a string: single quotes, switching to double quotes
  when the text contains a single quote but no double quote. -/
def pyReprStr (s : Str) : Str :=
  if s.contains (Char.ofNat 39) && !s.contains (Char.ofNat 34) then
    Char.ofNat 34 :: s.flatMap (pyEscChar (Char.ofNat 34)) ++ [Char.ofNat 34]
  else
    Char.ofNat 39 :: s.flatMap (pyEscChar (Char.ofNat 39)) ++ [Char.ofNat 39]

/-- Python `repr` of a scalar (`repr(None) = 'None'`, etc.). -/
def JLeaf.pyRepr : JLeaf → Str
  | .null => lit ("None")
  | .bool true => lit ("True")
  | .bool false => lit ("False")
  | .int n => (toString n).toList
  | .str s => pyReprStr s

/-- The comma-separated entries of Python `str` of a dict. -/
def objStrEntries : List (Str × JLeaf) → Str
  | [] => []
  | [(k, v)] => pyReprStr k ++ lit (": ") ++ v.pyRepr
  | (k, v) :: rest => pyReprStr k ++ lit (": ") ++ v.pyRepr ++ lit (", ") ++ objStrEntries rest

/-- Python `str(v)`, as applied by f-string interpolation: strings pass
  through, other values are rendered (`str(dict)` reprs its entries). -/
def JValue.pyStr : JValue → Str
  | .null => lit ("None")
  | .bool true => lit ("True")
  | .bool false => lit ("False")
  | .int n => (toString n).toList
  | .str s => s
  | .obj f => Char.ofNat 123 :: objStrEntries f ++ [Char.ofNat 125]

/-- The ASCII whitespace characters stripped by Python `str.strip()`. -/
def isPyWs (c : Char) : Bool :=
  c == ' ' || c == '\t' || c == '\n' || c == '\r' || c == '\x0b' || c == '\x0c'

/-- Strip trailing whitespace (the right half of Python `str.strip()`). -/
def stripRight (s : Str) : Str :=
  (s.reverse.dropWhile isPyWs).reverse

/-- Python `str.strip()`: drop leading and trailing whitespace. -/
def pyStrip (s : Str) : Str :=
  stripRight (s.dropWhile isPyWs)

/-- Python `s.split('\n')`: never empty, one entry per newline-separated
  segment (`''.split('\n') == ['']`). -/
def pySplitNl : Str → List Str
  | [] => [[]]
  | c :: cs =>
    if c = '\n' then [] :: pySplitNl cs
    else
      match pySplitNl cs with
      | [] => [[c]]
      | l :: ls => (c :: l) :: ls

/-- Python `a or b` on values: `a` when truthy, else `b`. -/
def pyOr (a b : JValue) : JValue :=
  if a.truthy then a else b

/-- Python `min(a, b)` on ints (first argument wins ties). -/
def pyMin (a b : Int) : Int :=
  if a ≤ b then a else b

/-- Python `max(a, b)` on ints (first argument wins ties). -/
def pyMax (a b : Int) : Int :=
  if b ≤ a then a else b

/-- Python `s.replace(pat, repl)` (all occurrences, non-empty pattern), with
  structural fuel so that it kernel-reduces; fuel `s.length` suffices since
  every step consumes at least one character. -/
def pyReplaceAux (pat repl : Str) : Nat → Str → Str
  | 0, s => s
  | _ + 1, [] => []
  | fuel + 1, c :: cs =>
    if pat ≠ [] ∧ pat.isPrefixOf (c :: cs) then
      repl ++ pyReplaceAux pat repl fuel (List.drop pat.length (c :: cs))
    else
      c :: pyReplaceAux pat repl fuel cs

/-- Python `s.replace(pat, repl)` for a non-empty pattern. -/
def pyReplace (pat repl s : Str) : Str :=
  pyReplaceAux pat repl s.length s

/-! Section: Document Builder (`_create_searchable_document`, agent.py lines 145-162) -/

/-- The shared resolution of `issuetype`/`status`/`priority` in
`_create_searchable_document` (lines 150-152):
`ticket_data.get(primary, {}).get('name', '') if
isinstance(ticket_data.get(primary), dict) else ticket_data.get(alt, '')`.
Note the else-branch reads the *alias* key, whether or not the primary key
is present with a non-dict value. -/
def resolveNamed (t : PyDict) (primary alt : Str) : JValue :=
  match pyGet t primary .null with
  | .obj f => objGet f (lit ("name"))
  | _ => pyGet t alt (.str [])

/-- The interpolated `key = ticket_data.get('key', '')` value of the template. -/
def docKey (t : PyDict) : Str := (pyGet t (lit ("key")) (.str [])).pyStr

/-- The Type line value of the template. -/
def docType (t : PyDict) : Str := (resolveNamed t (lit ("issuetype")) (lit ("issue_type"))).pyStr

/-- The Priority line value of the template. -/
def docPriority (t : PyDict) : Str := (resolveNamed t (lit ("priority")) (lit ("priority"))).pyStr

/-- The Status line value of the template. -/
def docStatus (t : PyDict) : Str := (resolveNamed t (lit ("status")) (lit ("status"))).pyStr

/-- The Summary line value of the template. -/
def docSummary (t : PyDict) : Str := (pyGet t (lit ("summary")) (.str [])).pyStr

/-- The Description line value of the template. -/
def docDescription (t : PyDict) : Str := (pyGet t (lit ("description")) (.str [])).pyStr

/-- Model of `_create_searchable_document`: the fixed six-line f-string template,
  `.strip()`-ed (agent.py lines 154-162). -/
def create_searchable_document (t : PyDict) : Str :=
  pyStrip
    (lit ("Ticket: ") ++ docKey t ++ '\n' ::
     lit ("Type: ") ++ docType t ++ '\n' ::
     lit ("Priority: ") ++ docPriority t ++ '\n' ::
     lit ("Status: ") ++ docStatus t ++ '\n' ::
     lit ("Summary: ") ++ docSummary t ++ '\n' ::
     lit ("Description: ") ++ docDescription t)

/-! Section: Metadata Extractor (`_extract_metadata`, agent.py lines 164-188) -/

/-- The inner helper `safe_extract(data, key, subkey)` (lines 167-173); all
call sites pass a non-empty `subkey`, so the `and subkey` conjunct of the
dict branch is always true and is not modelled separately. -/
def safe_extract (d : PyDict) (k sub : Str) : JValue :=
  match pyGet d k (.obj []) with
  | .obj f => objGet f sub
  | .str s => .str s
  | v => if v.truthy then .str v.pyStr else .str []

/-- Model of `_extract_metadata`: the nine tracked entries (lines 175-185), then
`{k: v for k, v in metadata.items() if v}` (line 188).  `now` models
`datetime.now().isoformat()`. -/
def extract_metadata (t : PyDict) (now : Str) : PyDict :=
  List.filter (fun kv => kv.2.truthy)
    [ (lit ("key"), pyGet t (lit ("key")) (.str [])),
      (lit ("issue_type"), pyOr (safe_extract t (lit ("issuetype")) (lit ("name"))) (pyGet t (lit ("issue_type")) (.str []))),
      (lit ("priority"), pyOr (safe_extract t (lit ("priority")) (lit ("name"))) (pyGet t (lit ("priority")) (.str []))),
      (lit ("status"), pyOr (safe_extract t (lit ("status")) (lit ("name"))) (pyGet t (lit ("status")) (.str []))),
      (lit ("assignee"), pyOr (safe_extract t (lit ("assignee")) (lit ("displayName"))) (pyGet t (lit ("assignee")) (.str []))),
      (lit ("reporter"), pyOr (safe_extract t (lit ("reporter")) (lit ("displayName"))) (pyGet t (lit ("reporter")) (.str []))),
      (lit ("project"), pyOr (safe_extract t (lit ("project")) (lit ("key"))) (pyGet t (lit ("project")) (.str []))),
      (lit ("created"), pyGet t (lit ("created")) (.str [])),
      (lit ("indexed_at"), .str now) ]

/-! Section: Knowledge Store (`JIRAKnowledgeBase`, agent.py lines 25-143) -/

/-- Round half to even, the tie-breaking rule of Python `round`. -/
def roundHalfEven (q : ℚ) : ℤ :=
  if q - ⌊q⌋ < 1/2 then ⌊q⌋
  else if 1/2 < q - ⌊q⌋ then ⌊q⌋ + 1
  else if ⌊q⌋ % 2 = 0 then ⌊q⌋ else ⌊q⌋ + 1

/-- Python `round(q, 3)` on an exact rational. -/
def round3 (q : ℚ) : ℚ :=
  (roundHalfEven (q * 1000) : ℚ) / 1000

/-- The single batch row of a ChromaDB `collection.query` reply, as the
code consumes it: `results['ids'][0]`, `results['documents'][0]`,
`results['metadatas'][0]`, `results['distances'][0]` (parallel arrays). -/
structure QueryReply where
  ids : List Str
  documents : List Str
  metadatas : List PyDict
  distances : List ℚ
  deriving DecidableEq

/-- The Vector Store collaborator: `collection.query(query_texts=[q],
n_results=n, where=w)` either raises (`Except.error`) or returns a reply. -/
abbrev VectorStore := Str → Int → PyDict → Except Str QueryReply

/-- One formatted search result (agent.py lines 95-100). -/
structure SearchResult where
  ticket_id : Str
  content : Str
  metadata : PyDict
  relevance_score : ℚ
  deriving DecidableEq

/-- The result-formatting loop of `search_tickets` (lines 93-101):
`for i, doc_id in enumerate(results['ids'][0])`, indexing the three other
parallel arrays at `i`.  An out-of-range index raises `IndexError`
(`none`), which the surrounding `try` turns into `[]`. -/
def formatRow : List Str → Nat → QueryReply → Option (List SearchResult)
  | [], _, _ => some []
  | doc_id :: rest, i, r => do
    let doc ← r.documents.get? i
    let md ← r.metadatas.get? i
    let dist ← r.distances.get? i
    let tail ← formatRow rest (i + 1) r
    pure (⟨doc_id, doc, md, round3 (1 - dist)⟩ :: tail)

/-- Model of `JIRAKnowledgeBase.search_tickets` (lines 84-106): query the store with
`n_results=min(n_results, 20)` and `where=filters or {}`; on any exception
in the `try` block, log and return `[]`. -/
def search_tickets (store : VectorStore) (query : Str) (n_results : Int := 5)
    (filters : Option PyDict := none) : List SearchResult :=
  match store query (pyMin n_results 20) (filters.getD []) with
  | .error _ => []
  | .ok r => (formatRow r.ids 0 r).getD []

/-- The record written by `add_ticket` (lines 64-79): the triple passed to
`collection.add`.  The id is `ticket_data.get('key', f"TICKET-{...}")`,
kept as a raw value since `.get` returns whatever is stored under `key`. -/
structure StoredRecord where
  id : JValue
  document : Str
  metadata : PyDict
  deriving DecidableEq

/-- Model of `JIRAKnowledgeBase.add_ticket` (success path): build the stored triple.
`fresh` models `str(uuid.uuid4())[:8]`, `now` the indexing timestamp. -/
def add_ticket (t : PyDict) (fresh now : Str) : StoredRecord :=
  ⟨pyGet t (lit ("key")) (.str (lit ("TICKET-") ++ fresh)),
   create_searchable_document t,
   extract_metadata t now⟩

/-! Section: Agent Tool Surface (agent.py lines 194-399) -/

/-- Outcome of the `add_jira_ticket` tool on a parsed ticket: the
validation error (missing both identity fields, lines 207-211), or success
carrying the returned `ticket_id` and the record written.  (JSON parsing
and the humane `result` text are not modelled.) -/
inductive AddReply where
  | invalid
  | added (ticket_id : JValue) (record : StoredRecord)
  deriving DecidableEq

/-- Model of `add_jira_ticket` on an already-parsed ticket (lines 203-219):
`if not ticket_data.get('key') and not ticket_data.get('summary')` is a
validation error; otherwise the ticket is stored. -/
def add_jira_ticket (t : PyDict) (fresh now : Str) : AddReply :=
  if !(pyGet t (lit ("key")) .null).truthy && !(pyGet t (lit ("summary")) .null).truthy then
    .invalid
  else
    .added (add_ticket t fresh now).id (add_ticket t fresh now)

/-- One entry of the `tickets` list built by `search_jira_tickets`
(lines 257-265). -/
structure TicketInfo where
  ticket_id : Str
  relevance_score : ℚ
  summary : Str
  type : JValue
  priority : JValue
  status : JValue
  assignee : JValue
  deriving DecidableEq

/-- Python `result['content'].split('\n')[0]`: the first line of the content. -/
def headLine (s : Str) : Str :=
  (pySplitNl s).headI

/-- The per-result `ticket_info` dict of `search_jira_tickets`
(lines 257-265): note `summary` is the first line of the stored document
with every occurrence of `'Ticket: '` removed. -/
def formatTicket (res : SearchResult) : TicketInfo :=
  ⟨res.ticket_id,
   res.relevance_score,
   pyReplace (lit ("Ticket: ")) [] (headLine res.content),
   pyGet res.metadata (lit ("issue_type")) (.str (lit ("Unknown"))),
   pyGet res.metadata (lit ("priority")) (.str (lit ("Unknown"))),
   pyGet res.metadata (lit ("status")) (.str (lit ("Unknown"))),
   pyGet res.metadata (lit ("assignee")) (.str (lit ("Unassigned")))⟩

/-- The machine-readable part of the `search_jira_tickets` reply: the
`tickets` list and `total_found` (the human-readable digest string is not
modelled; the tool's status is always success since the modelled body
cannot raise). -/
structure SearchReply where
  tickets : List TicketInfo
  total_found : Nat
  deriving DecidableEq

/-- Model of `search_jira_tickets` (lines 232-286): clamp
`limit = min(max(1, limit), 20)`, delegate to the Knowledge Store, format
each result. -/
def search_jira_tickets (store : VectorStore) (query : Str) (limit : Int := 5) : SearchReply :=
  ⟨(search_tickets store query (pyMin (pyMax 1 limit) 20) none).map formatTicket,
   (search_tickets store query (pyMin (pyMax 1 limit) 20) none).length⟩

/-- The filter mapping built by `filter_jira_tickets` (lines 352-360): one
entry per non-empty criterion, in the fixed insertion order. -/
def build_filters (issue_type priority status assignee : Str) : PyDict :=
  (if issue_type.isEmpty then [] else [(lit ("issue_type"), JValue.str issue_type)]) ++
  (if priority.isEmpty then [] else [(lit ("priority"), JValue.str priority)]) ++
  (if status.isEmpty then [] else [(lit ("status"), JValue.str status)]) ++
  (if assignee.isEmpty then [] else [(lit ("assignee"), JValue.str assignee)])

/-- Outcome of the `filter_jira_tickets` tool: the zero-criteria
validation error (lines 362-366), or success carrying `total_found` and
the raw results (the digest text is not modelled; the empty-result and
non-empty-result replies both report success with this count). -/
inductive FilterReply where
  | invalid
  | found (total_found : Nat) (results : List SearchResult)
  deriving DecidableEq

/-- Model of `filter_jira_tickets` (lines 350-393): build the criteria mapping; if
it is empty return the validation error without touching the store, else
`search_tickets("", n_results=20, filters=filters)`. -/
def filter_jira_tickets (store : VectorStore) (issue_type priority status assignee : Str) :
    FilterReply :=
  if build_filters issue_type priority status assignee = [] then
    .invalid
  else
    .found (search_tickets store [] 20 (some (build_filters issue_type priority status assignee))).length
      (search_tickets store [] 20 (some (build_filters issue_type priority status assignee)))

/-! Section: Concrete instances used by the claims -/

/-- The round-trip ticket of the specification:
`{"key": "T-1", "summary": "X", "issue_type": "Bug"}`. -/
def t1 : PyDict :=
  [(lit ("key"), .str (lit ("T-1"))), (lit ("summary"), .str (lit ("X"))),
   (lit ("issue_type"), .str (lit ("Bug")))]

/-- A concrete indexing timestamp. -/
def now1 : Str := lit ("2024-01-01T00:00:00")

/-- The document stored for `t1`. -/
def doc1 : Str := create_searchable_document t1

/-- A Vector Store whose query reply is exactly the record stored for
`t1` (id, document and metadata as written by `add_ticket`), at
distance 0 — the "search returns this record" scenario of the
round-trip property. -/
def store1 : VectorStore :=
  fun _ _ _ => .ok ⟨[lit ("T-1")], [doc1], [extract_metadata t1 now1], [0]⟩

/-- A ticket whose `issuetype` field holds the plain string `"Bug"` (and
no flat `issue_type` alias). -/
def t2 : PyDict :=
  [(lit ("key"), .str (lit ("K"))), (lit ("issuetype"), .str (lit ("Bug"))),
   (lit ("summary"), .str (lit ("S")))]

/-- A ticket whose `assignee` is a non-empty object lacking the
`displayName` sub-key. -/
def t3 : PyDict :=
  [(lit ("assignee"), .obj [(lit ("name"), .str (lit ("bob")))]),
   (lit ("summary"), .str (lit ("X")))]

/-- A Vector Store that returns one hit when asked for at least one
result and none when asked for zero — it distinguishes an effective
result count of 0 from 1. -/
def cstore : VectorStore :=
  fun _ n _ =>
    .ok (if 1 ≤ n then ⟨[lit ("A")], [lit ("Ticket: A")], [[]], [0]⟩ else ⟨[], [], [], []⟩)

/-- A Vector Store whose query always raises. -/
def failStore : VectorStore := fun _ _ _ => .error (lit ("boom"))

/-! Section: C1 — round-trip: id and formatted summary -/

/-- C1 counterexample: adding `t1` and searching `"X"` with limit 5
against a store that returns the stored record yields `ticket_id = "T-1"`
but a formatted summary of `"T-1"` (the first document line minus the
`"Ticket: "` label is the key), not `"X"` as the claim states. -/
theorem search_roundtrip_formatted_summary_cex :
    (search_jira_tickets store1 (lit ("X")) 5).tickets.head?.map
      (fun ti => (ti.ticket_id, ti.summary)) = some (lit ("T-1"), lit ("T-1")) ∧
    (lit ("T-1") : Str) ≠ lit ("X") := by decide

/-- C1 (amended): the round-trip search yields exactly one result whose
`ticket_id` is `"T-1"` and whose formatted summary is `"T-1"` — the
ticket's key, because the first line of the stored document is
`"Ticket: T-1"`; the metadata-derived `type` field does carry `"Bug"`. -/
theorem search_roundtrip_returns_key :
    (search_jira_tickets store1 (lit ("X")) 5).total_found = 1 ∧
    (search_jira_tickets store1 (lit ("X")) 5).tickets.head?.map
      (fun ti => (ti.ticket_id, ti.summary, ti.type)) =
      some (lit ("T-1"), lit ("T-1"), JValue.str (lit ("Bug"))) := by decide

/-! Section: C2 — Document Builder field resolution -/

/-- C2 counterexample: for `t2`, whose `issuetype` is the plain string
`"Bug"`, the Type line of the document is `"Type: "` — the string value
is ignored in favour of the absent `issue_type` alias — not
`"Type: Bug"` as the claim states. -/
theorem plain_issuetype_ignored_cex :
    (pySplitNl (create_searchable_document t2))[1]? = some (lit ("Type: ")) ∧
    (lit ("Type: ") : Str) ≠ lit ("Type: ") ++ lit ("Bug") := by decide

/-- C2 (amended): the Document Builder resolves a label value from an
object-valued primary field via its `name` sub-field, but whenever the
primary field's value is not an object — absent, a plain string, or
anything else — it reads the flat alias key instead (for `status` and
`priority` the alias is the same key, so plain strings there are used
directly; a plain-string `issuetype` is ignored in favour of
`issue_type`). -/
theorem resolveNamed_resolution (t : PyDict) (primary alt : Str) :
    (∀ f, pyGet t primary .null = .obj f →
      resolveNamed t primary alt = objGet f (lit ("name"))) ∧
    ((pyGet t primary .null).isObj = false →
      resolveNamed t primary alt = pyGet t alt (.str [])) ∧
    docType t = (resolveNamed t (lit ("issuetype")) (lit ("issue_type"))).pyStr := by
  refine ⟨fun f hf => ?_, fun h => ?_, rfl⟩
  · simp [resolveNamed, hf]
  · unfold resolveNamed
    cases hv : pyGet t primary .null <;> simp_all [JValue.isObj]

/-- C2 witness: the amended resolution evaluated at `t2` (plain-string
`issuetype`, absent alias) and at an object-valued `status`. -/
theorem resolveNamed_resolution_witness :
    resolveNamed t2 (lit ("issuetype")) (lit ("issue_type")) =
      pyGet t2 (lit ("issue_type")) (.str []) ∧
    resolveNamed [(lit ("status"), .obj [(lit ("name"), .str (lit ("Open")))])]
        (lit ("status")) (lit ("status")) =
      objGet [(lit ("name"), .str (lit ("Open")))] (lit ("name")) :=
  ⟨(resolveNamed_resolution t2 (lit ("issuetype")) (lit ("issue_type"))).2.1 (by decide),
   (resolveNamed_resolution [(lit ("status"), .obj [(lit ("name"), .str (lit ("Open")))])]
      (lit ("status")) (lit ("status"))).1 [(lit ("name"), .str (lit ("Open")))] (by decide)⟩

/-! Section: C3 — metadata values are strings -/

/-- C3 counterexample: for `t3` (an `assignee` object lacking
`displayName`), `_extract_metadata` keeps the raw object itself as the
`assignee` value — the output contains an object, not a string. -/
theorem metadata_object_value_cex :
    List.lookup (lit ("assignee")) (extract_metadata t3 (lit ("T"))) =
      some (.obj [(lit ("name"), .str (lit ("bob")))]) ∧
    JValue.isStr (.obj [(lit ("name"), .str (lit ("bob")))]) = false := by decide

/-- C3 (amended): every value of `extract_metadata` is a string provided
each of the eight field resolutions (the `safe_extract`-or-alias results,
and the raw `key` and `created` values) is a string; in general a
non-string raw value — e.g. a non-empty `assignee` object lacking
`displayName`, which falls back to the raw object — flows through to the
output unchanged. -/
theorem extract_metadata_string_values (t : PyDict) (now : Str)
    (hkey : (pyGet t (lit ("key")) (.str [])).isStr = true)
    (hcreated : (pyGet t (lit ("created")) (.str [])).isStr = true)
    (hit : (pyOr (safe_extract t (lit ("issuetype")) (lit ("name")))
      (pyGet t (lit ("issue_type")) (.str []))).isStr = true)
    (hpr : (pyOr (safe_extract t (lit ("priority")) (lit ("name")))
      (pyGet t (lit ("priority")) (.str []))).isStr = true)
    (hst : (pyOr (safe_extract t (lit ("status")) (lit ("name")))
      (pyGet t (lit ("status")) (.str []))).isStr = true)
    (hasg : (pyOr (safe_extract t (lit ("assignee")) (lit ("displayName")))
      (pyGet t (lit ("assignee")) (.str []))).isStr = true)
    (hrep : (pyOr (safe_extract t (lit ("reporter")) (lit ("displayName")))
      (pyGet t (lit ("reporter")) (.str []))).isStr = true)
    (hproj : (pyOr (safe_extract t (lit ("project")) (lit ("key")))
      (pyGet t (lit ("project")) (.str []))).isStr = true) :
    ∀ kv ∈ extract_metadata t now, kv.2.isStr = true := by
  intro kv hkv
  unfold extract_metadata at hkv
  have hmem := (List.mem_filter.mp hkv).1
  simp only [List.mem_cons, List.not_mem_nil, or_false] at hmem
  rcases hmem with h|h|h|h|h|h|h|h|h <;> subst h <;>
    simp_all [JValue.isStr]

/-- C3 witness: the amended statement evaluated at the all-string ticket
`t1`. -/
theorem extract_metadata_string_values_witness :
    List.all (extract_metadata t1 now1) (fun kv => kv.2.isStr) = true :=
  List.all_eq_true.mpr
    (fun kv hkv =>
      extract_metadata_string_values t1 now1 (by decide) (by decide) (by decide)
        (by decide) (by decide) (by decide) (by decide) (by decide) kv hkv)

/-! Section: C4 — limit clamping -/

/-- C4 counterexample: the Knowledge Store's `search_tickets` does not
clamp a low limit up to 1: with a store that answers one hit for any
positive count, `n_results = 0` produces no results while `n_results = 1`
produces one — it does not behave as if `N = 1`. -/
theorem search_low_limit_not_clamped_cex :
    (search_tickets cstore [] 0 none).length = 0 ∧
    (search_tickets cstore [] 1 none).length = 1 := by decide

/-- C4 (amended): the Knowledge Store's `search_tickets` clamps only the
upper bound (`min(n_results, 20)`), so any `N ≥ 20` behaves as `N = 20`;
the full `[1, 20]` clamp (`min(max(1, limit), 20)`) is applied by the
`search_jira_tickets` tool before delegating, so through the tool `N < 1`
behaves as `N = 1` and `N > 20` as `N = 20`. -/
theorem search_limit_clamping (store : VectorStore) (q : Str) (f : Option PyDict) (N : Int) :
    (20 ≤ N → search_tickets store q N f = search_tickets store q 20 f) ∧
    (N < 1 → search_jira_tickets store q N = search_jira_tickets store q 1) ∧
    (20 < N → search_jira_tickets store q N = search_jira_tickets store q 20) := by
  refine ⟨fun h => ?_, fun h => ?_, fun h => ?_⟩
  · have e : pyMin N 20 = pyMin 20 20 := by unfold pyMin; split_ifs <;> omega
    unfold search_tickets
    rw [e]
  · have e : pyMin (pyMax 1 N) 20 = pyMin (pyMax 1 1) 20 := by
      unfold pyMin pyMax; split_ifs <;> omega
    unfold search_jira_tickets
    rw [e]
  · have e : pyMin (pyMax 1 N) 20 = pyMin (pyMax 1 20) 20 := by
      unfold pyMin pyMax; split_ifs <;> omega
    unfold search_jira_tickets
    rw [e]

/-- C4 witness: the amended clamping behaviour at `N = 25` (store layer)
and `N = 0`, `N = 23` (tool layer), against the counting store. -/
theorem search_limit_clamping_witness :
    search_tickets cstore [] 25 none = search_tickets cstore [] 20 none ∧
    search_jira_tickets cstore [] 0 = search_jira_tickets cstore [] 1 ∧
    search_jira_tickets cstore [] 23 = search_jira_tickets cstore [] 20 :=
  ⟨(search_limit_clamping cstore [] none 25).1 (by decide),
   (search_limit_clamping cstore [] none 0).2.1 (by decide),
   (search_limit_clamping cstore [] none 23).2.2 (by decide)⟩

/-! Section: C5 — no falsy metadata values -/

/-- C5: every value kept by `extract_metadata` is truthy (empty or falsy
resolved values are dropped by the final comprehension), and the
`indexed_at` entry — whose value is the non-empty timestamp — is always
present. -/
theorem extract_metadata_truthy_values (t : PyDict) (now : Str) (h : now ≠ []) :
    (∀ kv ∈ extract_metadata t now, kv.2.truthy = true) ∧
    (lit ("indexed_at"), JValue.str now) ∈ extract_metadata t now := by
  unfold extract_metadata
  refine ⟨fun kv hkv => (List.mem_filter.mp hkv).2, List.mem_filter.mpr ⟨?_, ?_⟩⟩
  · simp
  · simpa [JValue.truthy, List.isEmpty_iff] using h

/-- C5 witness: the invariant at the empty ticket with timestamp `"T"`. -/
theorem extract_metadata_truthy_values_witness :
    List.all (extract_metadata [] (lit ("T"))) (fun kv => kv.2.truthy) = true ∧
    (lit ("indexed_at"), JValue.str (lit ("T"))) ∈ extract_metadata [] (lit ("T")) :=
  ⟨List.all_eq_true.mpr (fun kv hkv =>
      (extract_metadata_truthy_values [] (lit ("T")) (by decide)).1 kv hkv),
   (extract_metadata_truthy_values [] (lit ("T")) (by decide)).2⟩

/-! Section: C8 — store failure is swallowed -/

/-- C8: if the Vector Store query raises, `search_tickets` does not
propagate the exception: it returns the empty list. -/
theorem search_tickets_swallows_store_failure (store : VectorStore) (query : Str)
    (n : Int) (filters : Option PyDict) (e : Str)
    (h : store query (pyMin n 20) (filters.getD []) = .error e) :
    search_tickets store query n filters = [] := by
  unfold search_tickets
  rw [h]

/-- C8 witness: a store that always raises yields an empty result list. -/
theorem search_tickets_swallows_store_failure_witness :
    search_tickets failStore (lit ("q")) 5 none = [] :=
  search_tickets_swallows_store_failure failStore (lit ("q")) 5 none (lit ("boom")) rfl

/-! Section: C10 — empty-string key is accepted and stored verbatim -/

/-- C10: a ticket whose `key` is present but empty and whose `summary` is
non-empty passes validation and is stored under the empty-string
identifier; the synthesized `"TICKET-"`-prefixed identifier is used only
when the `key` field is entirely absent. -/
theorem add_preserves_empty_key (fresh now : Str) :
    (∀ t s, pyLookup t (lit ("key")) = some (.str []) →
      pyLookup t (lit ("summary")) = some (.str s) → s ≠ [] →
      add_jira_ticket t fresh now = .added (.str []) (add_ticket t fresh now) ∧
      (add_ticket t fresh now).id = .str []) ∧
    (∀ t, pyLookup t (lit ("key")) = none →
      (add_ticket t fresh now).id = .str (lit ("TICKET-") ++ fresh)) := by
  constructor
  · intro t s hk hs hs'
    have hid : (add_ticket t fresh now).id = .str [] := by
      simp [add_ticket, pyGet, hk]
    refine ⟨?_, hid⟩
    rw [add_jira_ticket, if_neg, hid]
    simp [pyGet, hk, hs, JValue.truthy, List.isEmpty_iff, hs']
  · intro t hk
    simp [add_ticket, pyGet, hk]

/-- C10 witness: the empty-key ticket `{"key": "", "summary": "X"}` is
accepted and stored under `""`; the empty ticket map gets the
synthesized identifier. -/
theorem add_preserves_empty_key_witness :
    add_jira_ticket [(lit ("key"), .str []), (lit ("summary"), .str (lit ("X")))]
        (lit ("abc12345")) now1 =
      .added (.str [])
        (add_ticket [(lit ("key"), .str []), (lit ("summary"), .str (lit ("X")))]
          (lit ("abc12345")) now1) ∧
    (add_ticket [] (lit ("abc12345")) now1).id = .str (lit ("TICKET-") ++ lit ("abc12345")) :=
  ⟨((add_preserves_empty_key (lit ("abc12345")) now1).1
      [(lit ("key"), .str []), (lit ("summary"), .str (lit ("X")))] (lit ("X"))
      (by decide) (by decide) (by decide)).1,
   (add_preserves_empty_key (lit ("abc12345")) now1).2 [] (by decide)⟩

/-! Section: C9 — filter tool validation and delegation -/

/-- Helper: the criteria mapping is empty exactly when all four criteria
are empty. -/
theorem build_filters_eq_nil_iff (it pr st asg : Str) :
    build_filters it pr st asg = [] ↔ (it = [] ∧ pr = [] ∧ st = [] ∧ asg = []) := by
  unfold build_filters
  split_ifs <;> simp_all [List.isEmpty_iff]

/-- C9: with all four criteria empty, `filter_jira_tickets` returns the
validation error for every store (so no store query can influence the
result); with at least one criterion non-empty, it returns the result of
`search_tickets` on the empty query with limit 20 and a filter mapping
containing exactly the non-empty criteria. -/
theorem filter_tool_criteria (store : VectorStore) (it pr st asg : Str) :
    (it = [] → pr = [] → st = [] → asg = [] →
      filter_jira_tickets store it pr st asg = .invalid) ∧
    (it ≠ [] ∨ pr ≠ [] ∨ st ≠ [] ∨ asg ≠ [] →
      filter_jira_tickets store it pr st asg =
        .found (search_tickets store [] 20 (some (build_filters it pr st asg))).length
          (search_tickets store [] 20 (some (build_filters it pr st asg))) ∧
      (∀ k v, (k, v) ∈ build_filters it pr st asg ↔
        ((k = lit ("issue_type") ∧ v = .str it ∧ it ≠ []) ∨
         (k = lit ("priority") ∧ v = .str pr ∧ pr ≠ []) ∨
         (k = lit ("status") ∧ v = .str st ∧ st ≠ []) ∨
         (k = lit ("assignee") ∧ v = .str asg ∧ asg ≠ [])))) := by
  constructor
  · intro h1 h2 h3 h4
    subst h1; subst h2; subst h3; subst h4
    rfl
  · intro h
    have hne : build_filters it pr st asg ≠ [] := by
      rw [Ne, build_filters_eq_nil_iff]
      tauto
    refine ⟨?_, ?_⟩
    · rw [filter_jira_tickets, if_neg hne]
    · intro k v
      unfold build_filters
      split_ifs <;>
        simp_all [List.isEmpty_iff, List.mem_append, Prod.ext_iff]

/-- C9 witness: zero criteria yield the validation error; the single
criterion `issue_type = "Bug"` delegates to the filtered search with the
one-entry mapping. -/
theorem filter_tool_criteria_witness :
    filter_jira_tickets failStore [] [] [] [] = .invalid ∧
    filter_jira_tickets failStore (lit ("Bug")) [] [] [] =
      .found (search_tickets failStore [] 20 (some (build_filters (lit ("Bug")) [] [] []))).length
        (search_tickets failStore [] 20 (some (build_filters (lit ("Bug")) [] [] []))) ∧
    ((lit ("issue_type"), JValue.str (lit ("Bug"))) ∈ build_filters (lit ("Bug")) [] [] []) :=
  ⟨(filter_tool_criteria failStore [] [] [] []).1 rfl rfl rfl rfl,
   ((filter_tool_criteria failStore (lit ("Bug")) [] [] []).2 (by decide)).1,
   (((filter_tool_criteria failStore (lit ("Bug")) [] [] []).2 (by decide)).2
      (lit ("issue_type")) (JValue.str (lit ("Bug")))).mpr (by decide)⟩

/-! Section: C6 — six-line template shape -/

/-- The splitter `pySplitNl` never returns the empty list. -/
theorem pySplitNl_ne_nil (s : Str) : pySplitNl s ≠ [] := by
  induction s with
  | nil => simp [pySplitNl]
  | cons c cs ih =>
    simp only [pySplitNl]
    split
    · simp
    · cases h : pySplitNl cs <;> simp

/-- Splitting past a newline-free prefix prepends it to the first
segment. -/
theorem pySplitNl_append (a b : Str) (ha : '\n' ∉ a) :
    pySplitNl (a ++ b) = (a ++ (pySplitNl b).headI) :: (pySplitNl b).tail := by
  induction a with
  | nil =>
    cases h : pySplitNl b with
    | nil => exact absurd h (pySplitNl_ne_nil b)
    | cons l ls => simp [h]
  | cons c a' ih =>
    have hc : ¬ c = '\n' := fun e => ha (e ▸ List.mem_cons_self c a')
    have ha' : '\n' ∉ a' := fun m => ha (List.mem_cons_of_mem _ m)
    rw [List.cons_append]
    simp only [pySplitNl, if_neg hc, ih ha']
    simp

/-- A newline-free string splits into the single segment itself. -/
theorem pySplitNl_no_newline (a : Str) (ha : '\n' ∉ a) : pySplitNl a = [a] := by
  have h := pySplitNl_append a [] ha
  simpa [pySplitNl] using h

/-- Splitting a line followed by a newline yields the line and the rest's
segments. -/
theorem pySplitNl_line_cons (a b : Str) (ha : '\n' ∉ a) :
    pySplitNl (a ++ '\n' :: b) = a :: pySplitNl b := by
  rw [pySplitNl_append a ('\n' :: b) ha]
  simp [pySplitNl]

/-- Right-stripping keeps a prefix whose suffix still holds a non-stripped
character. -/
theorem stripRight_append (a b : Str) (hb : stripRight b ≠ []) :
    stripRight (a ++ b) = a ++ stripRight b := by
  unfold stripRight at *
  rw [List.reverse_append, List.dropWhile_append]
  split
  · rename_i hemp
    rw [List.isEmpty_iff] at hemp
    rw [hemp] at hb
    simp at hb
  · rw [List.reverse_append, List.reverse_reverse]

/-- Right-stripping a string headed by a non-whitespace character yields a
non-empty string. -/
theorem stripRight_ne_nil_of_head (c : Char) (s : Str) (hc : isPyWs c = false) :
    stripRight (c :: s) ≠ [] := by
  unfold stripRight
  intro h
  rw [List.reverse_eq_nil_iff] at h
  have : c :: s = [] ++ (c :: s) := rfl
  rw [show (c :: s).reverse = s.reverse ++ [c] by simp] at h
  rw [List.dropWhile_append] at h
  split at h
  · simp [List.dropWhile, hc] at h
  · simp at h

/-- Characters of a right-stripped string come from the original. -/
theorem mem_of_mem_stripRight (c : Char) (s : Str) (h : c ∈ stripRight s) : c ∈ s := by
  unfold stripRight at h
  rw [List.mem_reverse] at h
  have := (List.dropWhile_sublist (l := s.reverse) (p := isPyWs)).mem h
  rwa [List.mem_reverse] at this

/-- Appending two newline-free strings is newline-free. -/
theorem no_nl_append (a b : Str) (ha : '\n' ∉ a) (hb : '\n' ∉ b) : '\n' ∉ a ++ b :=
  fun h => (List.mem_append.mp h).elim ha hb

/-- Stripping a string headed by a non-whitespace character strips its
right end only. -/
theorem pyStrip_cons_of_neg (c : Char) (s : Str) (hc : isPyWs c = false) :
    pyStrip (c :: s) = stripRight (c :: s) := by
  unfold pyStrip
  rw [List.dropWhile_cons_of_neg (by simp [hc])]

/-- The six-line shape of the stripped template, for arbitrary
newline-free line values. -/
theorem template_six_lines (k ty pr st sm ds : Str)
    (hk : '\n' ∉ k) (hty : '\n' ∉ ty) (hpr : '\n' ∉ pr)
    (hst : '\n' ∉ st) (hsm : '\n' ∉ sm) (hds : '\n' ∉ ds) :
    pySplitNl (pyStrip
      (lit ("Ticket: ") ++ k ++ '\n' ::
       lit ("Type: ") ++ ty ++ '\n' ::
       lit ("Priority: ") ++ pr ++ '\n' ::
       lit ("Status: ") ++ st ++ '\n' ::
       lit ("Summary: ") ++ sm ++ '\n' ::
       lit ("Description: ") ++ ds)) =
      [lit ("Ticket: ") ++ k,
       lit ("Type: ") ++ ty,
       lit ("Priority: ") ++ pr,
       lit ("Status: ") ++ st,
       lit ("Summary: ") ++ sm,
       stripRight (lit ("Description: ") ++ ds)] := by
  have hT : lit ("Ticket: ") = 'T' :: lit ("icket: ") := rfl
  have hD : lit ("Description: ") = 'D' :: lit ("escription: ") := rfl
  have hds6 : stripRight (lit ("Description: ") ++ ds) ≠ [] := by
    rw [hD, List.cons_append]
    exact stripRight_ne_nil_of_head 'D' _ (by decide)
  have e1 : (lit ("Ticket: ") ++ k ++ '\n' ::
       lit ("Type: ") ++ ty ++ '\n' ::
       lit ("Priority: ") ++ pr ++ '\n' ::
       lit ("Status: ") ++ st ++ '\n' ::
       lit ("Summary: ") ++ sm ++ '\n' ::
       lit ("Description: ") ++ ds) =
      'T' :: ((lit ("icket: ") ++ k ++ '\n' ::
       (lit ("Type: ") ++ ty) ++ '\n' ::
       (lit ("Priority: ") ++ pr) ++ '\n' ::
       (lit ("Status: ") ++ st) ++ '\n' ::
       ((lit ("Summary: ") ++ sm) ++ ['\n'])) ++ (lit ("Description: ") ++ ds)) := by
    rw [hT]
    simp [List.append_assoc]
  rw [e1]
  rw [pyStrip_cons_of_neg 'T' _ (by decide), ← List.cons_append,
    stripRight_append _ _ hds6]
  have e2 : ('T' :: (lit ("icket: ") ++ k ++ '\n' ::
       (lit ("Type: ") ++ ty) ++ '\n' ::
       (lit ("Priority: ") ++ pr) ++ '\n' ::
       (lit ("Status: ") ++ st) ++ '\n' ::
       ((lit ("Summary: ") ++ sm) ++ ['\n']))) ++ stripRight (lit ("Description: ") ++ ds) =
      (lit ("Ticket: ") ++ k) ++ '\n' ::
      ((lit ("Type: ") ++ ty) ++ '\n' ::
       ((lit ("Priority: ") ++ pr) ++ '\n' ::
        ((lit ("Status: ") ++ st) ++ '\n' ::
         ((lit ("Summary: ") ++ sm) ++ '\n' ::
          stripRight (lit ("Description: ") ++ ds))))) := by
    rw [hT]
    simp [List.append_assoc]
  rw [e2]
  rw [pySplitNl_line_cons _ _ (no_nl_append _ _ (by decide) hk)]
  rw [pySplitNl_line_cons _ _ (no_nl_append _ _ (by decide) hty)]
  rw [pySplitNl_line_cons _ _ (no_nl_append _ _ (by decide) hpr)]
  rw [pySplitNl_line_cons _ _ (no_nl_append _ _ (by decide) hst)]
  rw [pySplitNl_line_cons _ _ (no_nl_append _ _ (by decide) hsm)]
  rw [pySplitNl_no_newline _ (fun hm =>
    no_nl_append _ _ (by decide) hds (mem_of_mem_stripRight _ _ hm))]

/-- A ticket with a newline inside its `key` value (summary and
description newline-free, as the claim requires). -/
def t6 : PyDict :=
  [(lit ("key"), .str ['A', '\n', 'B']), (lit ("summary"), .str (lit ("S")))]

/-- C6 counterexample: for `t6`, whose summary and description contain no
newline, the document nevertheless splits into seven lines, because the
newline inside the `key` value adds a line — six lines is not guaranteed
by newline-freedom of summary and description alone. -/
theorem newline_key_breaks_six_lines_cex :
    ('\n' ∉ docSummary t6) ∧ ('\n' ∉ docDescription t6) ∧
    (pySplitNl (create_searchable_document t6)).length = 7 := by decide

/-- C6 (amended): for every ticket all six of whose resolved template
values (key, type, priority, status, summary, description) are
newline-free, the document splits into exactly these six lines, in the
fixed label order, with absent fields rendered as empty values on their
line; the outer `.strip()` right-trims the final Description line (and
would trim the start, which always begins with `Ticket:`). -/
theorem create_document_six_lines (t : PyDict)
    (hk : '\n' ∉ docKey t) (hty : '\n' ∉ docType t) (hpr : '\n' ∉ docPriority t)
    (hst : '\n' ∉ docStatus t) (hsm : '\n' ∉ docSummary t) (hds : '\n' ∉ docDescription t) :
    pySplitNl (create_searchable_document t) =
      [lit ("Ticket: ") ++ docKey t,
       lit ("Type: ") ++ docType t,
       lit ("Priority: ") ++ docPriority t,
       lit ("Status: ") ++ docStatus t,
       lit ("Summary: ") ++ docSummary t,
       stripRight (lit ("Description: ") ++ docDescription t)] := by
  unfold create_searchable_document
  exact template_six_lines _ _ _ _ _ _ hk hty hpr hst hsm hds

/-- C6 witness: the six lines of the round-trip ticket `t1`, whose
`priority` and `status` are absent and render as empty values. -/
theorem create_document_six_lines_witness :
    pySplitNl (create_searchable_document t1) =
      [lit ("Ticket: T-1"), lit ("Type: Bug"), lit ("Priority: "), lit ("Status: "),
       lit ("Summary: X"), lit ("Description:")] := by
  rw [create_document_six_lines t1 (by decide) (by decide) (by decide) (by decide)
    (by decide) (by decide)]
  decide

/-! Section: C7 — relevance scores: value, bounds, monotonicity -/

/-- Round-half-even never goes below the floor. -/
theorem roundHalfEven_ge_floor (q : ℚ) : ⌊q⌋ ≤ roundHalfEven q := by
  unfold roundHalfEven
  split_ifs <;> omega

/-- Round-half-even never exceeds the floor plus one. -/
theorem roundHalfEven_le_floor_add_one (q : ℚ) : roundHalfEven q ≤ ⌊q⌋ + 1 := by
  unfold roundHalfEven
  split_ifs <;> omega

/-- Round-half-even is monotone. -/
theorem roundHalfEven_mono {p q : ℚ} (h : p ≤ q) :
    roundHalfEven p ≤ roundHalfEven q := by
  rcases lt_or_eq_of_le (Int.floor_mono h) with hf | hf
  · calc roundHalfEven p ≤ ⌊p⌋ + 1 := roundHalfEven_le_floor_add_one p
      _ ≤ ⌊q⌋ := by omega
      _ ≤ roundHalfEven q := roundHalfEven_ge_floor q
  · unfold roundHalfEven
    rw [← hf]
    split_ifs <;> first | omega | linarith

/-- Rounding to three decimals is monotone. -/
theorem round3_mono {p q : ℚ} (h : p ≤ q) : round3 p ≤ round3 q := by
  unfold round3
  have h1 : roundHalfEven (p * 1000) ≤ roundHalfEven (q * 1000) :=
    roundHalfEven_mono (by linarith)
  have h2 : ((roundHalfEven (p * 1000) : ℚ)) ≤ (roundHalfEven (q * 1000) : ℚ) := by
    exact_mod_cast h1
  linarith

/-- Rounding fixes zero. -/
theorem round3_zero : round3 0 = 0 := by
  unfold round3 roundHalfEven
  norm_num

/-- Rounding fixes one. -/
theorem round3_one : round3 1 = 1 := by
  unfold round3 roundHalfEven
  rw [show ((1 : ℚ) * 1000) = ((1000 : ℤ) : ℚ) by norm_num, Int.floor_intCast]
  norm_num

/-- For a distance in `[0, 1]` the rounded score `round3 (1 - d)` stays in
`[0, 1]`. -/
theorem round3_bounds {d : ℚ} (h0 : 0 ≤ d) (h1 : d ≤ 1) :
    0 ≤ round3 (1 - d) ∧ round3 (1 - d) ≤ 1 := by
  constructor
  · have h := round3_mono (show (0 : ℚ) ≤ 1 - d by linarith)
    rwa [round3_zero] at h
  · have h := round3_mono (show (1 : ℚ) - d ≤ 1 by linarith)
    rwa [round3_one] at h

/-- The formatting loop pairs the `j`-th result with the `(i+j)`-th
distance and scores it `round3 (1 - d)`. -/
theorem formatRow_score (ids : List Str) (i : Nat) (r : QueryReply)
    (l : List SearchResult) (h : formatRow ids i r = some l) :
    ∀ j res, l.get? j = some res →
      ∃ d, r.distances.get? (i + j) = some d ∧
        res.relevance_score = round3 (1 - d) := by
  induction ids generalizing i l with
  | nil =>
    simp only [formatRow, Option.some.injEq] at h
    subst h
    intro j res hj
    simp at hj
  | cons doc_id rest ih =>
    rw [formatRow] at h
    obtain ⟨doc, hdoc, h⟩ := Option.bind_eq_some.mp h
    obtain ⟨md, hmd, h⟩ := Option.bind_eq_some.mp h
    obtain ⟨dist, hdist, h⟩ := Option.bind_eq_some.mp h
    obtain ⟨tail, htail, h⟩ := Option.bind_eq_some.mp h
    simp only [Option.pure_def, Option.some.injEq] at h
    subst h
    intro j res hj
    cases j with
    | zero =>
      simp only [List.get?_cons_zero, Option.some.injEq] at hj
      subst hj
      exact ⟨dist, by simpa using hdist, rfl⟩
    | succ j' =>
      obtain ⟨d, hd, hs⟩ := ih (i + 1) tail htail j' res (by simpa using hj)
      exact ⟨d, by rw [show i + (j' + 1) = i + 1 + j' by omega]; exact hd, hs⟩

/-- C7: against any store reply, each search result's `relevance_score`
equals `round3 (1 - d)` for its positional distance `d`; if all reply
distances lie in `[0, 1]` then every score lies in `[0, 1]`; and if the
reply distances are non-decreasing then the scores are non-increasing in
result order. -/
theorem search_relevance_scores (store : VectorStore) (q : Str) (n : Int)
    (f : Option PyDict) (r : QueryReply)
    (hok : store q (pyMin n 20) (f.getD []) = .ok r) :
    (∀ j res, (search_tickets store q n f).get? j = some res →
      ∃ d, r.distances.get? j = some d ∧ res.relevance_score = round3 (1 - d)) ∧
    ((∀ d ∈ r.distances, 0 ≤ d ∧ d ≤ 1) →
      ∀ res ∈ search_tickets store q n f,
        0 ≤ res.relevance_score ∧ res.relevance_score ≤ 1) ∧
    (r.distances.Pairwise (fun a b => a ≤ b) →
      (search_tickets store q n f).Pairwise
        (fun a b => b.relevance_score ≤ a.relevance_score)) := by
  have hst : search_tickets store q n f = (formatRow r.ids 0 r).getD [] := by
    unfold search_tickets
    rw [hok]
  rw [hst]
  cases hfr : formatRow r.ids 0 r with
  | none => simp
  | some l =>
    simp only [Option.getD_some]
    have spec := formatRow_score r.ids 0 r l hfr
    refine ⟨?_, ?_, ?_⟩
    · intro j res hj
      simpa using spec j res hj
    · intro hb res hres
      obtain ⟨j, hj⟩ := List.mem_iff_get?.mp hres
      obtain ⟨d, hd, hs⟩ := spec j res hj
      obtain ⟨h0, h1⟩ := hb d (List.get?_mem hd)
      rw [hs]
      exact round3_bounds h0 h1
    · intro hsorted
      rw [List.pairwise_iff_get]
      intro i j hij
      obtain ⟨di, hdi, hsi⟩ := spec i.val (l.get i) (List.get?_eq_get i.isLt)
      obtain ⟨dj, hdj, hsj⟩ := spec j.val (l.get j) (List.get?_eq_get j.isLt)
      obtain ⟨hi, ei⟩ := List.get?_eq_some.mp (by simpa using hdi)
      obtain ⟨hj', ej⟩ := List.get?_eq_some.mp (by simpa using hdj)
      have hle : di ≤ dj := by
        have hp := List.pairwise_iff_get.mp hsorted ⟨i.val, hi⟩ ⟨j.val, hj'⟩
          (by simpa using hij)
        rw [ei, ej] at hp
        exact hp
      rw [hsi, hsj]
      exact round3_mono (by linarith)

/-- A two-hit store reply with non-decreasing distances `[0, 1]`. -/
def qr0 : QueryReply :=
  ⟨[lit ("a"), lit ("b")], [lit ("da"), lit ("db")], [[], []], [0, 1]⟩

/-- A Vector Store answering `qr0` to every query. -/
def wstore : VectorStore := fun _ _ _ => .ok qr0

/-- C7 witness: against the concrete two-hit reply with sorted distances,
the search results' relevance scores are non-increasing. -/
theorem search_relevance_scores_witness :
    (search_tickets wstore (lit ("q")) 5 none).Pairwise
      (fun a b => b.relevance_score ≤ a.relevance_score) :=
  (search_relevance_scores wstore (lit ("q")) 5 none qr0 rfl).2.2
    (by simp [qr0, List.pairwise_cons])

end RcaAgent
